import Mathlib

/-!
Verification of the King of Time MCP server (kot-mcp-server).

A shallow embedding of `src/kot_mcp/client.py` and `src/kot_mcp/server.py`:
the retrying HTTP request core `_request`, the query-parameter filtering
helper `_get`, the endpoint request builders (`get_daily_workings`,
`record_time`, `approve_request`, `reject_request`), and the tool-adapter
layer of `server.py` (`_get_client`, `_fmt`, the `get_company` and
`approve_request` tools).  HTTP traffic is modelled by a stream of
responses indexed by attempt number; Python values decoded from JSON are
modelled by the inductive type `Json`, with Python truthiness made
explicit wherever the code branches on it.
-/

/-- A JSON value as produced by Python's json parsing (resp.json()):
null, booleans, integers, strings, arrays, and objects with
insertion-ordered fields. -/
inductive Json where
  | null : Json
  | bool (b : Bool) : Json
  | num (n : Int) : Json
  | str (s : String) : Json
  | arr (xs : List Json) : Json
  | obj (fields : List (String × Json)) : Json

/-- One HTTP response as the retrying core observes it: the status code,
the raw body text (resp.text) and the parsed JSON body (resp.json()). -/
structure HttpResponse where
  status : Nat
  text : String
  json : Json

/-- The typed API error of client.py: KotApiError(status_code, message),
whose str() rendering is an open bracket, the status code, a closing
bracket, a space and the message. -/
structure KotApiError where
  status_code : Nat
  message : String
deriving DecidableEq

/-- String rendering of KotApiError, from its constructor's call to
super() with the f-string interpolating status_code and message. -/
def kotApiErrorStr (e : KotApiError) : String :=
  "[" ++ toString e.status_code ++ "] " ++ e.message

/-- Outcome of the retrying core: a returned value (none on HTTP 204,
the parsed JSON otherwise) or a raised KotApiError. -/
inductive ReqOutcome where
  | ok (v : Option Json) : ReqOutcome
  | err (e : KotApiError) : ReqOutcome

/-- Observable behaviour of one _request call: its outcome, the list of
backoff sleep durations in seconds, in order, and the number of HTTP
requests actually sent. -/
structure ReqResult where
  outcome : ReqOutcome
  sleeps : List Nat
  attemptsMade : Nat

/-- The body of the for-loop of _request (client.py lines 57-75) together
with the fall-through raise at line 77, as a recursion on the remaining
loop iterations.  `attempt` is the Python loop index; `fuel` is how many
iterations of range(max_retries) remain.  On a 429 the code sleeps
2 ^ attempt seconds and continues; on status >= 400 it raises
KotApiError(status, body); on 204 it returns None; otherwise it returns
the parsed JSON.  When the loop exhausts, it raises KotApiError(429,
"Rate limit exceeded after retries"). -/
def requestLoop (responses : Nat → HttpResponse) : Nat → Nat → ReqResult
  | _, 0 =>
    { outcome := .err { status_code := 429, message := "Rate limit exceeded after retries" },
      sleeps := [], attemptsMade := 0 }
  | attempt, fuel + 1 =>
    let resp := responses attempt
    if resp.status = 429 then
      let rest := requestLoop responses (attempt + 1) fuel
      { outcome := rest.outcome, sleeps := 2 ^ attempt :: rest.sleeps,
        attemptsMade := rest.attemptsMade + 1 }
    else if 400 ≤ resp.status then
      { outcome := .err { status_code := resp.status, message := resp.text },
        sleeps := [], attemptsMade := 1 }
    else if resp.status = 204 then
      { outcome := .ok none, sleeps := [], attemptsMade := 1 }
    else
      { outcome := .ok (some resp.json), sleeps := [], attemptsMade := 1 }

/-- KingOfTimeClient._request: run the retry loop from attempt 0 with the
retry budget max_retries (default 3). -/
def _request (responses : Nat → HttpResponse) (max_retries : Nat := 3) : ReqResult :=
  requestLoop responses 0 max_retries




/-- The request descriptor a client method hands to the HTTP layer:
method, path, optional query-parameter mapping (None in Python when no
parameter survives filtering) and optional JSON body. -/
structure HttpRequest where
  method : String
  path : String
  params : Option (List (String × String))
  jsonBody : Option Json

/-- The dict comprehension of _get (client.py line 80): keep exactly the
entries whose value is not None. -/
def filterNone (params : List (String × Option String)) : List (String × String) :=
  params.filterMap fun kv => kv.2.map fun v => (kv.1, v)

/-- KingOfTimeClient._get: filter out None-valued parameters and send a
GET request; an empty filtered dict is passed as None (filtered or None). -/
def _get (path : String) (params : List (String × Option String)) : HttpRequest :=
  let filtered := filterNone params
  { method := "GET", path := path,
    params := if filtered.isEmpty then none else some filtered,
    jsonBody := none }

/-- KingOfTimeClient._post: send a POST request with a JSON object body. -/
def _post (path : String) (body : List (String × Json)) : HttpRequest :=
  { method := "POST", path := path, params := none, jsonBody := some (Json.obj body) }

/-- KingOfTimeClient._put: send a PUT request with a JSON object body. -/
def _put (path : String) (body : List (String × Json)) : HttpRequest :=
  { method := "PUT", path := path, params := none, jsonBody := some (Json.obj body) }

/-- Python truthiness of a str-or-None value: None and the empty string
are falsy, every other string is truthy. -/
def pyStrTruthy : Option String → Bool
  | none => false
  | some s => s != ""

/-- KingOfTimeClient.get_daily_workings (client.py lines 132-153): GET
/daily-workings with the four optional query parameters date, startDate,
endDate, divisionCode, in keyword order. -/
def get_daily_workings (date : Option String := none)
    (start_date : Option String := none) (end_date : Option String := none)
    (division_code : Option String := none) : HttpRequest :=
  _get "/daily-workings"
    [("date", date), ("startDate", start_date),
     ("endDate", end_date), ("divisionCode", division_code)]

/-- KingOfTimeClient.record_time (client.py lines 188-211): POST
/daily-workings/timerecord/{employee_key} with body {"type": record_type}
plus "date" and "time" keys added only when the argument is truthy
(if date: / if time:). -/
def record_time (employee_key : String) (record_type : Int)
    (date : Option String := none) (time : Option String := none) : HttpRequest :=
  let body := [("type", Json.num record_type)]
  let body := if pyStrTruthy date then body ++ [("date", Json.str (date.getD ""))] else body
  let body := if pyStrTruthy time then body ++ [("time", Json.str (time.getD ""))] else body
  _post ("/daily-workings/timerecord/" ++ employee_key) body

/-- KingOfTimeClient.approve_request (client.py lines 226-235): PUT
/requests/{request_id} with body {"action": "approve"}. -/
def approve_request (request_id : String) : HttpRequest :=
  _put ("/requests/" ++ request_id) [("action", Json.str "approve")]

/-- KingOfTimeClient.reject_request (client.py lines 237-251): PUT
/requests/{request_id} with body {"action": "reject"} plus a "reason" key
added only when reason is truthy (if reason:). -/
def reject_request (request_id : String) (reason : String := "") : HttpRequest :=
  let body := [("action", Json.str "reject")]
  let body := if reason != "" then body ++ [("reason", Json.str reason)] else body
  _put ("/requests/" ++ request_id) body

/-- KingOfTimeClient.get_company (client.py lines 94-96): GET /company
with no parameters. -/
def get_company_req : HttpRequest :=
  _get "/company" []




/-- Lower-case hexadecimal digit, as used by json.dumps \uXXXX escapes. -/
def hexDigitChar (n : Nat) : Char :=
  if n < 10 then Char.ofNat (48 + n) else Char.ofNat (87 + n)

/-- Four-digit lower-case hexadecimal rendering of a code point. -/
def hex4 (n : Nat) : String :=
  String.mk [hexDigitChar (n / 4096 % 16), hexDigitChar (n / 256 % 16),
             hexDigitChar (n / 16 % 16), hexDigitChar (n % 16)]

/-- Escaping of one character inside a JSON string literal, following
json.dumps with ensure_ascii=False: quote, backslash and the named control
characters get two-character escapes, other control characters get \uXXXX,
everything else (including non-ASCII) passes through. -/
def jsonEscapeChar (c : Char) : String :=
  if c = '"' then "\\\""
  else if c = '\\' then "\\\\"
  else if c = '\n' then "\\n"
  else if c = '\t' then "\\t"
  else if c = '\r' then "\\r"
  else if c.toNat = 8 then "\\b"
  else if c.toNat = 12 then "\\f"
  else if c.toNat < 32 then "\\u" ++ hex4 c.toNat
  else String.singleton c

/-- A JSON string literal: quotes around the escaped characters. -/
def jsonEscape (s : String) : String :=
  "\"" ++ String.join (s.toList.map jsonEscapeChar) ++ "\""

/-- Indentation prefix at nesting depth level for json.dumps(-, indent=2):
two spaces per level. -/
def indentStr (level : Nat) : String :=
  String.mk (List.replicate (2 * level) ' ')

mutual

/-- Serialization of one JSON value at nesting depth level, following
json.dumps(-, ensure_ascii=False, indent=2): empty containers print on
one line, non-empty containers put each item on its own line indented one
level deeper, with the closing bracket back at the opening level. -/
def jsonDump (level : Nat) : Json → String
  | .null => "null"
  | .bool true => "true"
  | .bool false => "false"
  | .num n => toString n
  | .str s => jsonEscape s
  | .arr [] => "[]"
  | .arr (x :: xs) =>
    "[\n" ++ indentStr (level + 1) ++ jsonDumpItems (level + 1) (x :: xs) ++
      "\n" ++ indentStr level ++ "]"
  | .obj [] => "\x7b\x7d"
  | .obj (f :: fs) =>
    "\x7b\n" ++ indentStr (level + 1) ++ jsonDumpFields (level + 1) (f :: fs) ++
      "\n" ++ indentStr level ++ "\x7d"

/-- Comma-and-newline separated serialization of array items. -/
def jsonDumpItems (level : Nat) : List Json → String
  | [] => ""
  | [x] => jsonDump level x
  | x :: y :: xs =>
    jsonDump level x ++ ",\n" ++ indentStr level ++ jsonDumpItems level (y :: xs)

/-- Comma-and-newline separated serialization of object fields, each as
an escaped key, a colon-space, and the value. -/
def jsonDumpFields (level : Nat) : List (String × Json) → String
  | [] => ""
  | [(k, v)] => jsonEscape k ++ ": " ++ jsonDump level v
  | (k, v) :: f :: fs =>
    jsonEscape k ++ ": " ++ jsonDump level v ++ ",\n" ++ indentStr level ++
      jsonDumpFields level (f :: fs)

end

/-- Python truthiness of a client result (None or a decoded JSON value):
None, null, False, 0, the empty string, the empty array and the empty
object are falsy; everything else is truthy. -/
def pyTruthy : Option Json → Bool
  | none => false
  | some .null => false
  | some (.bool b) => b
  | some (.num n) => n != 0
  | some (.str s) => s != ""
  | some (.arr xs) => !xs.isEmpty
  | some (.obj fs) => !fs.isEmpty

/-- KingOfTimeClient.__init__ (client.py lines 31-40): the client keeps
the access token it was constructed with (the network handle and headers
carry no further decision logic). -/
structure KingOfTimeClient where
  _token : String

namespace Server

/-- server.py _fmt (lines 37-39): json.dumps(data, ensure_ascii=False,
indent=2); Python None serializes as null. -/
def _fmt (data : Option Json) : String :=
  jsonDump 0 (data.getD Json.null)

/-- The RuntimeError message of _get_client (server.py lines 30-33), the
Python adjacent string literals concatenated. -/
def tokenErrorMsg : String :=
  "KOT_ACCESS_TOKEN が未設定です。" ++
    "King of Time 管理画面 → 設定 → 外部サービス連携 → WebAPI で取得してください。"

/-- server.py _get_client (lines 26-34): read KOT_ACCESS_TOKEN from the
environment with default "", raise RuntimeError when the token is falsy
(absent or empty), otherwise construct a client from the token.  The
environment variable is modelled as Option String (none when unset);
Except.error is the uncaught RuntimeError. -/
def _get_client (env : Option String) : Except String KingOfTimeClient :=
  let token := env.getD ""
  if token = "" then Except.error tokenErrorMsg
  else Except.ok { _token := token }

/-- Observable behaviour of one tool invocation: result is Except.ok of
the string the tool returns, or Except.error of an exception that escapes
the tool; requestsSent counts HTTP requests actually issued;
clientConstructed records whether a KingOfTimeClient was created. -/
structure ToolRun where
  result : Except String String
  requestsSent : Nat
  clientConstructed : Bool

/-- server.py tool get_company (lines 47-57): construct the client via
_get_client (a RuntimeError there escapes uncaught), call the client
method, format a success with _fmt, and convert a KotApiError e into the
string f-string rendering of the error prefixed by the Japanese word for
error and a colon-space; only KotApiError is caught. -/
def get_company (env : Option String) (responses : Nat → HttpResponse) : ToolRun :=
  match _get_client env with
  | Except.error msg => { result := Except.error msg, requestsSent := 0, clientConstructed := false }
  | Except.ok _ =>
    let r := _request responses 3
    match r.outcome with
    | ReqOutcome.ok v =>
      { result := Except.ok (_fmt v), requestsSent := r.attemptsMade, clientConstructed := true }
    | ReqOutcome.err e =>
      { result := Except.ok ("エラー: " ++ kotApiErrorStr e),
        requestsSent := r.attemptsMade, clientConstructed := true }

/-- server.py tool approve_request (lines 284-298): like get_company but
the success branch returns the fixed confirmation string when the result
is falsy (`_fmt(result) if result else "承認しました"`). -/
def approve_request (env : Option String) (request_id : String)
    (responses : Nat → HttpResponse) : ToolRun :=
  match _get_client env with
  | Except.error msg => { result := Except.error msg, requestsSent := 0, clientConstructed := false }
  | Except.ok _ =>
    let r := _request responses 3
    match r.outcome with
    | ReqOutcome.ok v =>
      { result := Except.ok (if pyTruthy v then _fmt v else "承認しました"),
        requestsSent := r.attemptsMade, clientConstructed := true }
    | ReqOutcome.err e =>
      { result := Except.ok ("エラー: " ++ kotApiErrorStr e),
        requestsSent := r.attemptsMade, clientConstructed := true }

end Server

/-- Behaviour of the retry loop across a prefix of k consecutive 429
responses: each of the k iterations sends one request, sleeps 2 to the
power of its loop index, and the loop then continues from attempt a + k
with k fewer iterations of budget. -/
theorem requestLoop_skip429 (responses : Nat → HttpResponse) :
    ∀ (k a fuel : Nat), k ≤ fuel →
      (∀ i, i < k → (responses (a + i)).status = 429) →
      requestLoop responses a fuel =
        { outcome := (requestLoop responses (a + k) (fuel - k)).outcome,
          sleeps := ((List.range k).map fun i => 2 ^ (a + i)) ++
            (requestLoop responses (a + k) (fuel - k)).sleeps,
          attemptsMade := k + (requestLoop responses (a + k) (fuel - k)).attemptsMade } := by
  intro k
  induction k with
  | zero => intro a fuel _ _; simp
  | succ k ih =>
    intro a fuel hk h429
    match fuel, hk with
    | f + 1, _ =>
      have h0 : (responses a).status = 429 := by
        have := h429 0 (Nat.succ_pos k); simpa using this
      have hrest := ih (a + 1) f (by omega) (fun i hi => by
        have := h429 (i + 1) (by omega)
        have hx : a + 1 + i = a + (i + 1) := by omega
        rw [hx]
        exact this)
      have hfun : (fun i => 2 ^ (a + 1 + i)) = fun i => 2 ^ (a + (i + 1)) := by
        funext i; congr 1; omega
      have hidx : a + 1 + k = a + (k + 1) := by omega
      have hfuel : f - k = f + 1 - (k + 1) := by omega
      rw [hidx, hfuel] at hrest
      simp only [requestLoop, h0, if_true, reduceIte, hrest]
      simp only [ReqResult.mk.injEq]
      refine ⟨trivial, ?_, by omega⟩
      rw [hfun]
      simp [List.range_succ_eq_map, List.map_map, Function.comp]

/-- C1: for every request whose every attempt receives an HTTP 429
response, _request makes exactly max_retries attempts (default 3),
sleeping 2 ^ attempt seconds with the loop index as the backoff exponent
(delays 1, 2, 4, ... seconds), and after the budget is exhausted raises
KotApiError with status 429 ("Rate limit exceeded after retries"). -/
theorem c1_rate_limit_exhaustion (responses : Nat → HttpResponse) (max_retries : Nat)
    (h : ∀ i, i < max_retries → (responses i).status = 429) :
    _request responses max_retries =
      { outcome := .err { status_code := 429, message := "Rate limit exceeded after retries" },
        sleeps := (List.range max_retries).map fun i => 2 ^ i,
        attemptsMade := max_retries } := by
  have hskip := requestLoop_skip429 responses max_retries 0 max_retries le_rfl
    (fun i hi => by simpa using h i hi)
  simpa [_request, requestLoop] using hskip

/-- Witness for c1_rate_limit_exhaustion at the default budget 3: the
delays are 1, 2 and 4 seconds and the outcome is the 429 rate-limit
error. -/
theorem c1_rate_limit_exhaustion_witness :
    _request (fun _ => { status := 429, text := "too many requests", json := .null }) 3 =
      { outcome := .err { status_code := 429, message := "Rate limit exceeded after retries" },
        sleeps := [1, 2, 4], attemptsMade := 3 } := by
  have h := c1_rate_limit_exhaustion
    (fun _ => { status := 429, text := "too many requests", json := .null }) 3
    (fun _ _ => rfl)
  exact h

/-- C2: a response with status at least 400 and different from 429,
received at attempt k after k 429 responses, makes the core fail
immediately: the outcome is KotApiError with exactly that response's
status code and raw body text, no further attempt is sent (k + 1 requests
in total) and no further sleep occurs. -/
theorem c2_error_fail_fast (responses : Nat → HttpResponse) (max_retries k : Nat)
    (hk : k < max_retries)
    (h429 : ∀ i, i < k → (responses i).status = 429)
    (hs : 400 ≤ (responses k).status) (hne : (responses k).status ≠ 429) :
    _request responses max_retries =
      { outcome := .err { status_code := (responses k).status, message := (responses k).text },
        sleeps := (List.range k).map fun i => 2 ^ i,
        attemptsMade := k + 1 } := by
  have hskip := requestLoop_skip429 responses k 0 max_retries (le_of_lt hk)
    (fun i hi => by simpa using h429 i hi)
  obtain ⟨m, hm⟩ : ∃ m, max_retries - k = m + 1 := ⟨max_retries - k - 1, by omega⟩
  rw [hm] at hskip
  simp only [Nat.zero_add] at hskip
  rw [_request, hskip]
  simp [requestLoop, hne, hs]

/-- Witness for c2_error_fail_fast: a 500 response on the first attempt
fails at once with status 500 and the body text, after one request and no
sleep. -/
theorem c2_error_fail_fast_witness :
    _request (fun _ => { status := 500, text := "server error", json := .null }) 3 =
      { outcome := .err { status_code := 500, message := "server error" },
        sleeps := [], attemptsMade := 1 } := by
  have h := c2_error_fail_fast
    (fun _ => { status := 500, text := "server error", json := .null }) 3 0
    (by decide) (fun i hi => absurd hi (Nat.not_lt_zero i)) (by decide) (by decide)
  exact h

/-- C3: a success response (status below 400), received at attempt k
after k 429 responses, ends the loop at once: on status 204 the core
returns None and no JSON value, on any other success status it returns
the parsed JSON body. -/
theorem c3_success_responses (responses : Nat → HttpResponse) (max_retries k : Nat)
    (hk : k < max_retries)
    (h429 : ∀ i, i < k → (responses i).status = 429)
    (hs : (responses k).status < 400) :
    _request responses max_retries =
      { outcome := .ok (if (responses k).status = 204 then none else some (responses k).json),
        sleeps := (List.range k).map fun i => 2 ^ i,
        attemptsMade := k + 1 } := by
  have hskip := requestLoop_skip429 responses k 0 max_retries (le_of_lt hk)
    (fun i hi => by simpa using h429 i hi)
  obtain ⟨m, hm⟩ : ∃ m, max_retries - k = m + 1 := ⟨max_retries - k - 1, by omega⟩
  rw [hm] at hskip
  simp only [Nat.zero_add] at hskip
  rw [_request, hskip]
  have hne : ¬((responses k).status = 429) := by omega
  have hge : ¬(400 ≤ (responses k).status) := by omega
  by_cases h204 : (responses k).status = 204
  · simp [requestLoop, hne, hge, h204]
  · simp [requestLoop, hne, hge, h204]

/-- Witness for c3_success_responses: a 204 response yields None, and in
a second application a 200 response with a JSON object body yields that
parsed body. -/
theorem c3_success_responses_witness :
    _request (fun _ => { status := 204, text := "", json := .null }) 3 =
      { outcome := .ok none, sleeps := [], attemptsMade := 1 } ∧
    _request (fun _ => { status := 200, text := "", json := .obj [("ok", .bool true)] }) 3 =
      { outcome := .ok (some (.obj [("ok", .bool true)])), sleeps := [], attemptsMade := 1 } := by
  constructor
  · have h := c3_success_responses
      (fun _ => { status := 204, text := "", json := .null }) 3 0
      (by decide) (fun i hi => absurd hi (Nat.not_lt_zero i)) (by decide)
    simpa using h
  · have h := c3_success_responses
      (fun _ => { status := 200, text := "", json := .obj [("ok", .bool true)] }) 3 0
      (by decide) (fun i hi => absurd hi (Nat.not_lt_zero i)) (by decide)
    simpa using h

/-- C4: a key-value pair appears in the filtered query mapping of _get
exactly when the caller supplied that value (entries left unset, i.e.
None, are absent, never sent as null or as an empty string); and the
concrete scenario: get_daily_workings with only start_date and end_date
set issues GET /daily-workings with exactly the startDate and endDate
parameters and no date or divisionCode entry. -/
theorem c4_unset_params_absent :
    (∀ (ps : List (String × Option String)) (k v : String),
        (k, v) ∈ filterNone ps ↔ (k, some v) ∈ ps) ∧
    get_daily_workings none (some "2026-01-01") (some "2026-01-31") none =
      { method := "GET", path := "/daily-workings",
        params := some [("startDate", "2026-01-01"), ("endDate", "2026-01-31")],
        jsonBody := none } := by
  constructor
  · intro ps k v
    simp only [filterNone, List.mem_filterMap]
    constructor
    · rintro ⟨⟨k2, v2⟩, hmem, heq⟩
      cases v2 with
      | none => simp at heq
      | some w =>
        simp only [Option.map_some] at heq
        obtain ⟨rfl, rfl⟩ := Prod.mk.injEq .. ▸ Option.some.injEq .. ▸ heq
        exact hmem
    · intro hmem
      exact ⟨(k, some v), hmem, rfl⟩
  · rfl

/-- C5: record_time with employee key E001, record type 1 and no date or
time issues POST /daily-workings/timerecord/E001 with JSON body exactly
the single field type 1 — no date or time key. -/
theorem c5_record_time_minimal_body :
    record_time "E001" 1 none none =
      { method := "POST", path := "/daily-workings/timerecord/E001",
        params := none, jsonBody := some (Json.obj [("type", Json.num 1)]) } := by
  rfl

/-- C9: empty-string optional arguments to the mutating endpoints are
treated as absent because the inclusion checks test truthiness:
reject_request with reason set to the empty string sends exactly the
action field, and record_time with empty date and time strings omits both
keys from the body. -/
theorem c9_empty_string_like_absent :
    (∀ request_id : String,
      reject_request request_id "" =
        { method := "PUT", path := "/requests/" ++ request_id, params := none,
          jsonBody := some (Json.obj [("action", Json.str "reject")]) }) ∧
    (∀ (employee_key : String) (record_type : Int),
      record_time employee_key record_type (some "") (some "") =
        { method := "POST", path := "/daily-workings/timerecord/" ++ employee_key,
          params := none,
          jsonBody := some (Json.obj [("type", Json.num record_type)]) }) := by
  refine ⟨fun request_id => rfl, fun employee_key record_type => rfl⟩

/-- C10: an access-token environment variable set to the empty string
behaves exactly like an absent one — _get_client raises the RuntimeError
in both cases — and every successfully constructed client holds a
non-empty token. -/
theorem c10_empty_token_like_absent :
    Server._get_client (some "") = Server._get_client none ∧
    (∀ (env : Option String) (c : KingOfTimeClient),
        Server._get_client env = Except.ok c → c._token ≠ "") := by
  constructor
  · rfl
  · intro env c h hc
    by_cases he : env.getD "" = ""
    · simp [Server._get_client, he] at h
    · simp [Server._get_client, he] at h
      rw [← h] at hc
      exact he hc

/-- Witness for c10_empty_token_like_absent: the client built from the
token "tok" holds a non-empty token. -/
theorem c10_empty_token_like_absent_witness :
    ({ _token := "tok" } : KingOfTimeClient)._token ≠ "" :=
  c10_empty_token_like_absent.2 (some "tok") { _token := "tok" } rfl

/-- C7: with a missing access-token configuration, the tools raise the
configuration RuntimeError before any client is constructed or any HTTP
request is sent, and the error escapes the tool (Except.error) instead of
being converted into the tool-level formatted error string. -/
theorem c7_missing_token_raises_early (env : Option String)
    (responses : Nat → HttpResponse) (h : env.getD "" = "") :
    Server.get_company env responses =
      { result := Except.error Server.tokenErrorMsg, requestsSent := 0,
        clientConstructed := false } ∧
    ∀ request_id, Server.approve_request env request_id responses =
      { result := Except.error Server.tokenErrorMsg, requestsSent := 0,
        clientConstructed := false } := by
  have hc : Server._get_client env = Except.error Server.tokenErrorMsg := by
    simp [Server._get_client, h]
  exact ⟨by simp [Server.get_company, hc], fun request_id => by
    simp [Server.approve_request, hc]⟩

/-- Witness for c7_missing_token_raises_early: with the variable unset
the get_company tool propagates the RuntimeError, sends no request and
constructs no client, even though the network would answer 200. -/
theorem c7_missing_token_raises_early_witness :
    Server.get_company none (fun _ => { status := 200, text := "", json := .null }) =
      { result := Except.error Server.tokenErrorMsg, requestsSent := 0,
        clientConstructed := false } :=
  (c7_missing_token_raises_early none
    (fun _ => { status := 200, text := "", json := .null }) rfl).1

/-- C8: whenever the client raises KotApiError, the tool catches it and
returns the formatted error text (the Japanese error prefix followed by
the f-string rendering of the error) instead of letting the exception
cross the tool boundary; the configuration RuntimeError — the exception
that is not a KotApiError — is not caught and does escape. -/
theorem c8_api_errors_converted_to_text (env : Option String)
    (responses : Nat → HttpResponse) (e : KotApiError)
    (htok : env.getD "" ≠ "")
    (herr : (_request responses 3).outcome = .err e) :
    (Server.get_company env responses).result =
      Except.ok ("エラー: " ++ kotApiErrorStr e) ∧
    (∀ request_id, (Server.approve_request env request_id responses).result =
      Except.ok ("エラー: " ++ kotApiErrorStr e)) ∧
    (∀ (env2 : Option String) (responses2 : Nat → HttpResponse), env2.getD "" = "" →
      (Server.get_company env2 responses2).result = Except.error Server.tokenErrorMsg) := by
  have hc : Server._get_client env = Except.ok { _token := env.getD "" } := by
    simp [Server._get_client, htok]
  refine ⟨?_, fun request_id => ?_, fun env2 responses2 h2 => ?_⟩
  · simp [Server.get_company, hc, herr]
  · simp [Server.approve_request, hc, herr]
  · have hc2 : Server._get_client env2 = Except.error Server.tokenErrorMsg := by
      simp [Server._get_client, h2]
    simp [Server.get_company, hc2]

/-- Witness for c8_api_errors_converted_to_text: a 500 response makes the
get_company tool return the formatted one-line error text, and a missing
token makes it propagate the RuntimeError. -/
theorem c8_api_errors_converted_to_text_witness :
    (Server.get_company (some "tok")
        (fun _ => { status := 500, text := "server error", json := .null })).result =
      Except.ok "エラー: [500] server error" ∧
    (Server.get_company none
        (fun _ => { status := 500, text := "server error", json := .null })).result =
      Except.error Server.tokenErrorMsg := by
  have h := c8_api_errors_converted_to_text (some "tok")
    (fun _ => { status := 500, text := "server error", json := .null })
    { status_code := 500, message := "server error" }
    (by simp) rfl
  exact ⟨h.1, h.2.2 none (fun _ => { status := 500, text := "server error", json := .null }) rfl⟩

/-- C6: when the underlying endpoint answers 204 the approve_request tool
returns the fixed confirmation string (never a serialized empty JSON
block), and when the endpoint answers with a success status carrying a
non-empty (truthy) JSON body the tool returns that body pretty-printed by
_fmt. -/
theorem c6_approve_tool_confirmation (env : Option String) (request_id : String)
    (responses : Nat → HttpResponse) (htok : env.getD "" ≠ "") :
    ((responses 0).status = 204 →
      Server.approve_request env request_id responses =
        { result := Except.ok "承認しました", requestsSent := 1,
          clientConstructed := true }) ∧
    ((responses 0).status < 400 → (responses 0).status ≠ 204 →
      pyTruthy (some (responses 0).json) = true →
      (Server.approve_request env request_id responses).result =
        Except.ok (Server._fmt (some (responses 0).json))) := by
  have hc : Server._get_client env = Except.ok { _token := env.getD "" } := by
    simp [Server._get_client, htok]
  constructor
  · intro h204
    have hreq := c3_success_responses responses 3 0 (by omega)
      (fun i hi => absurd hi (Nat.not_lt_zero i)) (by omega)
    rw [h204] at hreq
    simp only [if_pos rfl] at hreq
    simp [Server.approve_request, hc, hreq, pyTruthy]
  · intro hlt h204 htruthy
    have hreq := c3_success_responses responses 3 0 (by omega)
      (fun i hi => absurd hi (Nat.not_lt_zero i)) hlt
    rw [if_neg h204] at hreq
    simp [Server.approve_request, hc, hreq, htruthy]

/-- Witness for c6_approve_tool_confirmation: a 204 endpoint yields the
confirmation string after one request, and a 200 endpoint with an object
body yields that body pretty-printed. -/
theorem c6_approve_tool_confirmation_witness :
    Server.approve_request (some "tok") "R1"
        (fun _ => { status := 204, text := "", json := .null }) =
      { result := Except.ok "承認しました", requestsSent := 1,
        clientConstructed := true } ∧
    (Server.approve_request (some "tok") "R1"
        (fun _ => { status := 200, text := "", json := .obj [("id", .str "R1")] })).result =
      Except.ok (Server._fmt (some (.obj [("id", .str "R1")]))) := by
  constructor
  · exact (c6_approve_tool_confirmation (some "tok") "R1"
      (fun _ => { status := 204, text := "", json := .null }) (by simp)).1 rfl
  · exact (c6_approve_tool_confirmation (some "tok") "R1"
      (fun _ => { status := 200, text := "", json := .obj [("id", .str "R1")] })
      (by simp)).2 (by decide) (by decide) rfl
